import Mathlib

/-!
Shallow embedding of `weather.py` (TNAucoin/terminalWeather).

Conventions of the embedding:
* Python strings are modelled as `List Char`; `chars s` turns a Lean string
  literal into that representation.
* Byte strings (the UTF-8 encoding that `urllib.parse.quote_plus` operates
  on) are modelled as `List Nat` with every element `< 256`.
* JSON numbers (the `main.temp` field) are modelled as `ℚ`.
* `sys.exit(msg)` is modelled as returning an `exit`/`exitWith` value
  carrying the message; an uncaught Python exception (IndexError /
  TypeError on the geolocation path) is modelled as a `crash` value.
* External collaborators (the HTTP server, the `json` module, the
  `geocoder` provider, the secrets file) enter as explicit inputs.
-/

/-- Characters of a string literal: the `List Char` model of a Python str. -/
def chars (s : String) : List Char := s.data

/-- `BASE_WEATHER_API_URL` from `weather.py`. -/
def BASE_WEATHER_API_URL : List Char :=
  chars "http://api.openweathermap.org/data/2.5/weather"

/-- The clint `colored.*` functions used by the source, as an enum. -/
inductive TermColor where
  | red
  | cyan
  | yellow
  | blue
  | white
deriving DecidableEq, Repr

/-- ANSI foreground code of each clint color (constant per color). -/
def ansiCodeOf : TermColor → List Char
  | .red => chars "31"
  | .cyan => chars "36"
  | .yellow => chars "33"
  | .blue => chars "34"
  | .white => chars "37"

/-- `colored.<c>(s)`: wraps the text in the color escape and a reset.
The exact escape bytes are a fixed rendering choice of the clint library;
what matters for the claims is that it is a fixed function of the color
tag and the text. -/
def coloredText (c : TermColor) (s : List Char) : List Char :=
  chars "\x1b[" ++ ansiCodeOf c ++ chars "m" ++ s ++ chars "\x1b[0m"

/-- Rendering of a JSON number by Python string interpolation, modelled by
the rational's `toString`.  The claims only use that the presenter applies
the same rendering to the unmodified input in both unit systems. -/
def pyNumRepr (q : ℚ) : List Char := (toString q).data

/-- `temp_display_format` from `weather.py`: appends the unit suffix to the
interpolated temperature, no numeric conversion. -/
def temp_display_format (temperature : ℚ) (imperial : Bool) : List Char :=
  if imperial then pyNumRepr temperature ++ chars "°F"
  else pyNumRepr temperature ++ chars "°C"

/-- `temp_color_display_format` from `weather.py`: the threshold-based
color choice. -/
def temp_color_display_format (temperature : ℚ) (imperial : Bool) : TermColor :=
  if imperial then
    if temperature ≥ 90 then .red
    else if temperature ≤ 50 then .cyan
    else .yellow
  else
    if temperature ≥ 32 then .red
    else if temperature ≤ 10 then .cyan
    else .yellow

/-- One element of the decoded payload's `weather` array.  Only
`description` is read by the source; `entryRest` carries the remaining
keys of the JSON object. -/
structure WeatherEntry where
  description : List Char
  entryRest : List (List Char × List Char)
deriving DecidableEq, Repr

/-- The decoded payload's `main` object.  Only `temp` is read by the
source; `mainRest` carries the remaining keys. -/
structure MainSection where
  temp : ℚ
  mainRest : List (List Char × List Char)
deriving DecidableEq, Repr

/-- A decoded JSON weather payload: the fields the source reads
(`name`, `weather`, `main`) plus `payloadRest` for every other top-level
key of the JSON object. -/
structure WeatherPayload where
  name : List Char
  weather : List WeatherEntry
  main : MainSection
  payloadRest : List (List Char × List Char)
deriving DecidableEq, Repr

/-- `weather_output_format` from `weather.py`.  Reading `weather[0]` of an
empty array raises IndexError in Python, modelled by `none`; otherwise the
formatted line (the `>>>`-quoted indent prefix is a constant of the clint
`indent` context manager). -/
def weather_output_format (weather_data : WeatherPayload) (imperial : Bool) :
    Option (List Char) :=
  match weather_data.weather with
  | [] => none
  | entry :: _ =>
    let temperature := weather_data.main.temp
    let city_message := coloredText .blue weather_data.name
    let weather_description_message := coloredText .white entry.description
    let temperature_message :=
      coloredText (temp_color_display_format temperature imperial)
        (temp_display_format temperature imperial)
    some (chars ">>> " ++ chars "[" ++ city_message ++ chars "]: " ++
      weather_description_message ++ chars ", " ++ temperature_message)

/-- Outcome of `json.loads` on the raw response body: either a decoded
payload or a decode failure (body kept for reference). -/
inductive JsonBody where
  | valid (payload : WeatherPayload)
  | invalid (raw : List Char)
deriving DecidableEq, Repr

/-- An HTTP response as seen by `get_weather_data`: urllib raises
`HTTPError` exactly when the status is not a success status, and the body
(together with its parse outcome) is carried alongside. -/
structure HttpResponse where
  status : Nat
  body : JsonBody
deriving DecidableEq, Repr

/-- Result of `get_weather_data`: either `sys.exit` with a message, or the
decoded payload. -/
inductive FetchResult where
  | exit (msg : List Char)
  | data (payload : WeatherPayload)
deriving DecidableEq, Repr

/-- Whether a fetch result actually carries a weather report. -/
def FetchResult.isData : FetchResult → Bool
  | .data _ => true
  | .exit _ => false

/-- `get_weather_data` from `weather.py`.  A non-2xx status surfaces as
`urllib.error.HTTPError` and is mapped by code (401 / 404 / generic with
the code interpolated; the source's f-string lacks the closing
parenthesis, kept faithfully).  On success the body is parsed;
a `json.JSONDecodeError` exits with the decode message. -/
def get_weather_data (resp : HttpResponse) : FetchResult :=
  if 200 ≤ resp.status ∧ resp.status < 300 then
    match resp.body with
    | .valid payload => .data payload
    | .invalid _ => .exit (chars "Couldn't read server response.")
  else if resp.status = 401 then
    .exit (chars "Access denied. Check API key.")
  else if resp.status = 404 then
    .exit (chars "Can't find weather data for this city.")
  else
    .exit (chars "Something went wrong... (" ++ Nat.toDigits 10 resp.status)

/-- C1: for every failed (non-2xx) HTTP response, `get_weather_data` exits
with the message determined only by the status code — the result does not
depend on the body; 401 gives the access-denied message, 404 the
not-found message, and any other non-2xx status the generic message with
the decimal status code appended; in every such case no weather report is
returned. -/
theorem c1_failed_response_exit (s : Nat) (b b' : JsonBody)
    (hfail : ¬ (200 ≤ s ∧ s < 300)) :
    get_weather_data ⟨s, b⟩ = get_weather_data ⟨s, b'⟩ ∧
    (s = 401 →
      get_weather_data ⟨s, b⟩ = .exit (chars "Access denied. Check API key.")) ∧
    (s = 404 →
      get_weather_data ⟨s, b⟩ = .exit (chars "Can't find weather data for this city.")) ∧
    (s ≠ 401 → s ≠ 404 →
      get_weather_data ⟨s, b⟩ =
        .exit (chars "Something went wrong... (" ++ Nat.toDigits 10 s)) ∧
    (get_weather_data ⟨s, b⟩).isData = false := by
  simp only [get_weather_data, hfail, if_false]
  by_cases h401 : s = 401 <;> by_cases h404 : s = 404 <;>
    simp_all [FetchResult.isData]

/-- Witness for C1 at status 500 with two different bodies. -/
theorem c1_failed_response_exit_witness :
    get_weather_data ⟨500, .invalid (chars "oops")⟩ =
      get_weather_data ⟨500, .valid ⟨chars "x", [], ⟨0, []⟩, []⟩⟩ ∧
    get_weather_data ⟨500, .invalid (chars "oops")⟩ =
      .exit (chars "Something went wrong... (" ++ Nat.toDigits 10 500) := by
  have h := c1_failed_response_exit 500 (.invalid (chars "oops"))
    (.valid ⟨chars "x", [], ⟨0, []⟩, []⟩) (by decide)
  exact ⟨h.1, h.2.2.2.1 (by decide) (by decide)⟩

/-- C2: the color thresholds are inclusive exactly as stated: imperial
`temp ≥ 90` red, `temp ≤ 50` cyan, strictly between yellow; metric the
same at 32 and 10. -/
theorem c2_color_thresholds (t : ℚ) :
    (90 ≤ t → temp_color_display_format t true = .red) ∧
    (t ≤ 50 → temp_color_display_format t true = .cyan) ∧
    (50 < t → t < 90 → temp_color_display_format t true = .yellow) ∧
    (32 ≤ t → temp_color_display_format t false = .red) ∧
    (t ≤ 10 → temp_color_display_format t false = .cyan) ∧
    (10 < t → t < 32 → temp_color_display_format t false = .yellow) := by
  refine ⟨?_, ?_, ?_, ?_, ?_, ?_⟩
  · intro h
    simp [temp_color_display_format, ge_iff_le, h]
  · intro h
    have h90 : ¬ (90 ≤ t) := by linarith
    simp [temp_color_display_format, ge_iff_le, h, h90]
  · intro h1 h2
    have h90 : ¬ (90 ≤ t) := by linarith
    have h50 : ¬ (t ≤ 50) := by linarith
    simp [temp_color_display_format, ge_iff_le, h90, h50]
  · intro h
    simp [temp_color_display_format, ge_iff_le, h]
  · intro h
    have h32 : ¬ (32 ≤ t) := by linarith
    simp [temp_color_display_format, ge_iff_le, h, h32]
  · intro h1 h2
    have h32 : ¬ (32 ≤ t) := by linarith
    have h10 : ¬ (t ≤ 10) := by linarith
    simp [temp_color_display_format, ge_iff_le, h32, h10]

/-- Witness for C2 at the boundary temperatures 90, 50, 70 (imperial) and
32, 10, 20 (metric). -/
theorem c2_color_thresholds_witness :
    temp_color_display_format 90 true = .red ∧
    temp_color_display_format 50 true = .cyan ∧
    temp_color_display_format 70 true = .yellow ∧
    temp_color_display_format 32 false = .red ∧
    temp_color_display_format 10 false = .cyan ∧
    temp_color_display_format 20 false = .yellow :=
  ⟨(c2_color_thresholds 90).1 (by norm_num),
   (c2_color_thresholds 50).2.1 (by norm_num),
   (c2_color_thresholds 70).2.2.1 (by norm_num) (by norm_num),
   (c2_color_thresholds 32).2.2.2.1 (by norm_num),
   (c2_color_thresholds 10).2.2.2.2.1 (by norm_num),
   (c2_color_thresholds 20).2.2.2.2.2 (by norm_num) (by norm_num)⟩

/-- C5 counterexample: a 401 response with a non-JSON body exits with the
access-denied message, not with "Couldn't read server response.", so the
claim quantified over every HTTP response fails at status 401. -/
theorem c5_counterexample_status_401 :
    get_weather_data ⟨401, .invalid (chars "<html>")⟩ =
      .exit (chars "Access denied. Check API key.") ∧
    get_weather_data ⟨401, .invalid (chars "<html>")⟩ ≠
      .exit (chars "Couldn't read server response.") := by
  constructor
  · rfl
  · decide

/-- C5 (amended): for every response with a success (2xx) status whose body
is not valid JSON, `get_weather_data` exits with
"Couldn't read server response." — in particular when the status is
exactly 200. -/
theorem c5_invalid_json_decode_error (s : Nat) (raw : List Char)
    (h1 : 200 ≤ s) (h2 : s < 300) :
    get_weather_data ⟨s, .invalid raw⟩ =
      .exit (chars "Couldn't read server response.") := by
  simp [get_weather_data, h1, h2]

/-- Witness for the amended C5 at status 200. -/
theorem c5_invalid_json_decode_error_witness :
    get_weather_data ⟨200, .invalid (chars "not json")⟩ =
      .exit (chars "Couldn't read server response.") :=
  c5_invalid_json_decode_error 200 (chars "not json") (by decide) (by decide)

/-- Bytes that `urllib.parse.quote` never percent-encodes (ASCII letters,
digits, and the four characters underscore, dot, dash, tilde). -/
def isUnreservedByte (b : Nat) : Bool :=
  (65 ≤ b && b ≤ 90) || (97 ≤ b && b ≤ 122) || (48 ≤ b && b ≤ 57) ||
  b == 95 || b == 46 || b == 45 || b == 126

/-- Uppercase hexadecimal digit of `n < 16`, as used by `quote`'s
percent-escapes. -/
def hexDigitChar (n : Nat) : Char :=
  if n < 10 then Char.ofNat (48 + n) else Char.ofNat (55 + n)

/-- Hexadecimal digit test (both cases), as accepted by `unquote`. -/
def isHexChar (c : Char) : Bool :=
  (48 ≤ c.toNat && c.toNat ≤ 57) || (65 ≤ c.toNat && c.toNat ≤ 70) ||
  (97 ≤ c.toNat && c.toNat ≤ 102)

/-- Value of a hexadecimal digit character. -/
def hexCharVal (c : Char) : Nat :=
  if c.toNat ≤ 57 then c.toNat - 48
  else if c.toNat ≤ 70 then c.toNat - 55
  else c.toNat - 87

/-- Encoding of one byte under `urllib.parse.quote_plus`: space becomes
`+`, unreserved bytes pass through, everything else becomes an uppercase
percent-escape. -/
def quotePlusByte (b : Nat) : List Char :=
  if b = 32 then [Char.ofNat 43]
  else if isUnreservedByte b then [Char.ofNat b]
  else [Char.ofNat 37, hexDigitChar (b / 16), hexDigitChar (b % 16)]

/-- `urllib.parse.quote_plus` on the UTF-8 bytes of the city name
(`parse.quote_plus(city_name)` in the source, default safe set). -/
def quote_plus (bs : List Nat) : List Char :=
  (bs.map quotePlusByte).flatten

/-- `urllib.parse.unquote_plus` at the byte level: `+` becomes a space,
a percent followed by two hex digits becomes that byte, an invalid escape
is kept literally, and any other character contributes its code point. -/
def unquote_plus : List Char → List Nat
  | [] => []
  | [c] => if c = Char.ofNat 43 then [32] else [c.toNat]
  | [c, h1] =>
    if c = Char.ofNat 43 then 32 :: unquote_plus [h1]
    else c.toNat :: unquote_plus [h1]
  | c :: h1 :: h2 :: rest =>
    if c = Char.ofNat 43 then 32 :: unquote_plus (h1 :: h2 :: rest)
    else if c = Char.ofNat 37 ∧ isHexChar h1 = true ∧ isHexChar h2 = true then
      (hexCharVal h1 * 16 + hexCharVal h2) :: unquote_plus rest
    else c.toNat :: unquote_plus (h1 :: h2 :: rest)

set_option maxRecDepth 4096

/-- A byte kept verbatim by `quote_plus` is a plain character: not the
plus sign, not the percent sign, and its code point is the byte itself. -/
theorem unreservedByte_char_facts :
    ∀ b : Nat, b < 256 → isUnreservedByte b = true →
      Char.ofNat b ≠ Char.ofNat 43 ∧ Char.ofNat b ≠ Char.ofNat 37 ∧
      (Char.ofNat b).toNat = b := by
  decide

/-- The two hex digits emitted for a percent-escaped byte decode back to
that byte. -/
theorem hexDigit_roundtrip :
    ∀ b : Nat, b < 256 →
      isHexChar (hexDigitChar (b / 16)) = true ∧
      isHexChar (hexDigitChar (b % 16)) = true ∧
      hexCharVal (hexDigitChar (b / 16)) * 16 + hexCharVal (hexDigitChar (b % 16)) = b := by
  decide

/-- No character emitted by `quotePlusByte` is an ampersand, so the
encoded city name never collides with the query-string separator. -/
theorem quotePlusByte_no_ampersand :
    ∀ b : Nat, b < 256 → (quotePlusByte b).all (fun c => c != Char.ofNat 38) = true := by
  decide

/-- Decoding consumes the encoding of one byte and returns exactly that
byte. -/
theorem unquote_quotePlusByte (b : Nat) (hb : b < 256) (rest : List Char) :
    unquote_plus (quotePlusByte b ++ rest) = b :: unquote_plus rest := by
  by_cases h32 : b = 32
  · subst h32
    match rest with
    | [] => simp [quotePlusByte, unquote_plus]
    | [r1] => simp [quotePlusByte, unquote_plus]
    | r1 :: r2 :: rs => simp [quotePlusByte, unquote_plus]
  · by_cases hu : isUnreservedByte b
    · obtain ⟨hne1, hne2, htn⟩ := unreservedByte_char_facts b hb hu
      match rest with
      | [] => simp [quotePlusByte, h32, hu, unquote_plus, hne1, hne2, htn]
      | [r1] => simp [quotePlusByte, h32, hu, unquote_plus, hne1, hne2, htn]
      | r1 :: r2 :: rs => simp [quotePlusByte, h32, hu, unquote_plus, hne1, hne2, htn]
    · obtain ⟨hh1, hh2, hval⟩ := hexDigit_roundtrip b hb
      have hne : Char.ofNat 37 ≠ Char.ofNat 43 := by decide
      simp [quotePlusByte, h32, hu, unquote_plus, hne, hh1, hh2, hval]

/-- Round trip: decoding the `quote_plus`-encoding of any byte string
recovers the bytes. -/
theorem unquote_plus_quote_plus (bs : List Nat) (h : ∀ b ∈ bs, b < 256) :
    unquote_plus (quote_plus bs) = bs := by
  induction bs with
  | nil => simp [quote_plus, unquote_plus]
  | cons b rest ih =>
    have hb : b < 256 := h b (List.mem_cons_self b rest)
    have hrest : ∀ x ∈ rest, x < 256 := fun x hx => h x (List.mem_cons_of_mem _ hx)
    have hsplit : quote_plus (b :: rest) = quotePlusByte b ++ quote_plus rest := by
      simp [quote_plus]
    rw [hsplit, unquote_quotePlusByte b hb, ih hrest]

/-- The encoded city name contains no ampersand. -/
theorem quote_plus_no_ampersand (bs : List Nat) (h : ∀ b ∈ bs, b < 256) :
    ∀ c ∈ quote_plus bs, (c != Char.ofNat 38) = true := by
  induction bs with
  | nil => intro c hc; simp [quote_plus] at hc
  | cons b rest ih =>
    intro c hc
    have hb : b < 256 := h b (List.mem_cons_self b rest)
    have hrest : ∀ x ∈ rest, x < 256 := fun x hx => h x (List.mem_cons_of_mem _ hx)
    have hsplit : quote_plus (b :: rest) = quotePlusByte b ++ quote_plus rest := by
      simp [quote_plus]
    rw [hsplit] at hc
    rcases List.mem_append.mp hc with hc | hc
    · have hall := quotePlusByte_no_ampersand b hb
      exact List.all_eq_true.mp hall c hc
    · exact ih hrest c hc

/-- `takeWhile` over a list that wholly satisfies the predicate followed
by a failing element returns exactly the first part. -/
theorem takeWhile_append_stop {α : Type} (p : α → Bool) (xs : List α) (y : α)
    (ys : List α) (hxs : ∀ x ∈ xs, p x = true) (hy : p y = false) :
    (xs ++ y :: ys).takeWhile p = xs := by
  induction xs with
  | nil => simp [List.takeWhile_cons, hy]
  | cons a as ih =>
    have ha : p a = true := hxs a (List.mem_cons_self a as)
    have has : ∀ x ∈ as, p x = true := fun x hx => hxs x (List.mem_cons_of_mem _ hx)
    simp [List.takeWhile_cons, ha, ih has]

/-- `" ".join(city_input)` at the byte level: tokens joined by single
space bytes. -/
def joinSpace : List (List Nat) → List Nat
  | [] => []
  | [t] => t
  | t :: t2 :: ts => t ++ (32 :: joinSpace (t2 :: ts))

/-- Every byte of a joined city name is a byte of some token or the
space separator. -/
theorem joinSpace_bytes_lt (ts : List (List Nat))
    (h : ∀ t ∈ ts, ∀ b ∈ t, b < 256) : ∀ b ∈ joinSpace ts, b < 256 := by
  induction ts with
  | nil => intro b hb; simp [joinSpace] at hb
  | cons t rest ih =>
    cases rest with
    | nil =>
      intro b hb
      exact h t (List.mem_cons_self t []) b (by simpa [joinSpace] using hb)
    | cons t2 rest2 =>
      intro b hb
      simp only [joinSpace, List.mem_append, List.mem_cons] at hb
      rcases hb with hb | hb | hb
      · exact h t (List.mem_cons_self t (t2 :: rest2)) b hb
      · subst hb; decide
      · exact ih (fun x hx => h x (List.mem_cons_of_mem _ hx)) b hb

/-- `build_weather_query_with_city` from `weather.py`.  The API key is an
explicit input here (the source fetches it from `_get_api_key()`, modelled
separately); the city tokens are UTF-8 byte strings. -/
def build_weather_query_with_city (api_key : List Char)
    (city_input : List (List Nat)) (imperial : Bool) : List Char :=
  let city_name := joinSpace city_input
  let url_encoded_city_name := quote_plus city_name
  let units := if imperial then chars "imperial" else chars "metric"
  BASE_WEATHER_API_URL ++ chars "?q=" ++ url_encoded_city_name ++
    chars "&units=" ++ units ++ chars "&appid=" ++ api_key

/-- Re-parsing the produced URL: the value of the `q` parameter is what
stands between the builder's fixed `?q=` position and the next `&`. -/
def qParamOf (url : List Char) : List Char :=
  (url.drop (BASE_WEATHER_API_URL ++ chars "?q=").length).takeWhile
    (fun c => c != Char.ofNat 38)

/-- C3: for every non-empty list of city tokens (UTF-8 bytes), decoding
the `q` parameter of the URL produced by `build_weather_query_with_city`
recovers exactly the space-joined city name. -/
theorem c3_city_query_roundtrip (api_key : List Char)
    (city_input : List (List Nat)) (imperial : Bool)
    (_hne : city_input ≠ [])
    (hbytes : ∀ t ∈ city_input, ∀ b ∈ t, b < 256) :
    unquote_plus (qParamOf (build_weather_query_with_city api_key city_input imperial)) =
      joinSpace city_input := by
  have hlt := joinSpace_bytes_lt city_input hbytes
  have hnoamp := quote_plus_no_ampersand (joinSpace city_input) hlt
  have hsplit : build_weather_query_with_city api_key city_input imperial =
      (BASE_WEATHER_API_URL ++ chars "?q=") ++
        (quote_plus (joinSpace city_input) ++
          (Char.ofNat 38 ::
            (chars "units=" ++
              (if imperial then chars "imperial" else chars "metric") ++
              chars "&appid=" ++ api_key))) := by
    simp [build_weather_query_with_city, chars]
  rw [hsplit]
  unfold qParamOf
  rw [List.drop_left]
  rw [takeWhile_append_stop (fun c => c != Char.ofNat 38) _ (Char.ofNat 38) _
    hnoamp (by decide)]
  exact unquote_plus_quote_plus (joinSpace city_input) hlt

/-- Witness for C3 with city tokens "New" and "York" (ASCII bytes) and a
concrete API key. -/
theorem c3_city_query_roundtrip_witness :
    unquote_plus (qParamOf (build_weather_query_with_city (chars "APIKEY")
        [[78, 101, 119], [89, 111, 114, 107]] false)) =
      joinSpace [[78, 101, 119], [89, 111, 114, 107]] :=
  c3_city_query_roundtrip (chars "APIKEY") [[78, 101, 119], [89, 111, 114, 107]]
    false (by decide) (by decide)

/-- `build_weather_query_with_lat_long` from `weather.py`.  The source
subscripts `lat_long[0]` and `lat_long[1]`; a list with fewer than two
elements raises IndexError (and `None.latlng` a TypeError), modelled by
`none`. -/
def build_weather_query_with_lat_long (api_key : List Char)
    (lat_long : List (List Char)) (imperial : Bool) : Option (List Char) :=
  match lat_long.get? 0, lat_long.get? 1 with
  | some lat, some lon =>
    let units := if imperial then chars "imperial" else chars "metric"
    some (BASE_WEATHER_API_URL ++ chars "?lat=" ++ lat ++ chars "&lon=" ++ lon ++
      chars "&units=" ++ units ++ chars "&appid=" ++ api_key)
  | _, _ => none

/-- C9: for every coordinate pair, the lat/long builder embeds the first
element (latitude) before the second (longitude), both verbatim between
fixed literal URL pieces, with no encoding or transformation applied. -/
theorem c9_lat_before_lon (api_key lat lon : List Char)
    (rest : List (List Char)) (imperial : Bool) :
    build_weather_query_with_lat_long api_key (lat :: lon :: rest) imperial =
      some (BASE_WEATHER_API_URL ++ chars "?lat=" ++ lat ++ chars "&lon=" ++ lon ++
        chars "&units=" ++ (if imperial then chars "imperial" else chars "metric") ++
        chars "&appid=" ++ api_key) := by
  rfl

/-- C4: the unit-system mapping is total and exhaustive over the imperial
flag: both query builders put `imperial` in the `units` parameter exactly
when the flag is true and `metric` exactly when it is false (same URL
otherwise), and the presenter appends `°F` respectively `°C` to the same
unconverted rendering of the temperature. -/
theorem c4_unit_mapping (api_key lat lon : List Char)
    (rest : List (List Char)) (city_input : List (List Nat)) (t : ℚ) :
    build_weather_query_with_city api_key city_input true =
      (BASE_WEATHER_API_URL ++ chars "?q=" ++ quote_plus (joinSpace city_input)) ++
        chars "&units=imperial&appid=" ++ api_key ∧
    build_weather_query_with_city api_key city_input false =
      (BASE_WEATHER_API_URL ++ chars "?q=" ++ quote_plus (joinSpace city_input)) ++
        chars "&units=metric&appid=" ++ api_key ∧
    build_weather_query_with_lat_long api_key (lat :: lon :: rest) true =
      some ((BASE_WEATHER_API_URL ++ chars "?lat=" ++ lat ++ chars "&lon=" ++ lon) ++
        chars "&units=imperial&appid=" ++ api_key) ∧
    build_weather_query_with_lat_long api_key (lat :: lon :: rest) false =
      some ((BASE_WEATHER_API_URL ++ chars "?lat=" ++ lat ++ chars "&lon=" ++ lon) ++
        chars "&units=metric&appid=" ++ api_key) ∧
    temp_display_format t true = pyNumRepr t ++ chars "°F" ∧
    temp_display_format t false = pyNumRepr t ++ chars "°C" := by
  refine ⟨?_, ?_, ?_, ?_, rfl, rfl⟩ <;>
    simp [build_weather_query_with_city, build_weather_query_with_lat_long, chars]

/-- The argparse namespace of `read_user_cli_args`: `city` is `None` when
`-c` is absent (argparse's `nargs` of one-or-more guarantees a non-empty
token list when it is present), `imperial` is the store-true flag. -/
structure CliRequest where
  city : Option (List (List Nat))
  imperial : Bool
deriving DecidableEq, Repr

/-- Outcome of the query-building part of `__main__`: either a URL, or an
uncaught Python exception (IndexError / TypeError on a short coordinate
list), or a `sys.exit` with a user-facing message (never produced on this
path by the source, present so the claimed behavior is expressible). -/
inductive BuildOutcome where
  | crash
  | exitMsg (msg : List Char)
  | url (u : List Char)
deriving DecidableEq, Repr

/-- Whether the outcome is a fatal exit carrying a user-facing message. -/
def BuildOutcome.isUserExit : BuildOutcome → Bool
  | .exitMsg _ => true
  | _ => false

/-- The query selection of `__main__` in `weather.py`: `if user_args.city:`
(Python truthiness: `None` and the empty list both fall through) builds
from the city tokens, otherwise from the geolocated coordinates returned
by `get_user_current_lat_lng` (passed in as `current_location`). -/
def main_build_query (user_args : CliRequest)
    (current_location : List (List Char)) (api_key : List Char) : BuildOutcome :=
  match user_args.city with
  | some (t :: ts) =>
    .url (build_weather_query_with_city api_key (t :: ts) user_args.imperial)
  | _ =>
    match build_weather_query_with_lat_long api_key current_location
        user_args.imperial with
    | some u => .url u
    | none => .crash

/-- C6: in every invocation exactly one of city and coordinates is used:
with a city argument (argparse guarantees it non-empty) the URL is built
from the city tokens only — the geolocated coordinates are ignored — and
with no city argument the URL is built from the coordinates only. -/
theorem c6_exactly_one_source (api_key : List Char) (imperial : Bool)
    (tokens : List (List Nat)) (geo geo' : List (List Char))
    (lat lon : List Char) (rest : List (List Char))
    (htok : tokens ≠ []) :
    main_build_query ⟨some tokens, imperial⟩ geo api_key =
      .url (build_weather_query_with_city api_key tokens imperial) ∧
    main_build_query ⟨some tokens, imperial⟩ geo api_key =
      main_build_query ⟨some tokens, imperial⟩ geo' api_key ∧
    main_build_query ⟨none, imperial⟩ (lat :: lon :: rest) api_key =
      .url ((build_weather_query_with_lat_long api_key (lat :: lon :: rest)
        imperial).getD []) := by
  match tokens, htok with
  | t :: ts, _ =>
    refine ⟨rfl, rfl, ?_⟩
    simp [main_build_query, build_weather_query_with_lat_long]

/-- Witness for C6 with city tokens "NYC", two geolocation values, and a
concrete coordinate pair. -/
theorem c6_exactly_one_source_witness :
    main_build_query ⟨some [[78, 89, 67]], false⟩ [chars "1", chars "2"]
        (chars "KEY") =
      .url (build_weather_query_with_city (chars "KEY") [[78, 89, 67]] false) ∧
    main_build_query ⟨some [[78, 89, 67]], false⟩ [chars "1", chars "2"]
        (chars "KEY") =
      main_build_query ⟨some [[78, 89, 67]], false⟩ [] (chars "KEY") ∧
    main_build_query ⟨none, false⟩ [chars "40.71", chars "-74.00"] (chars "KEY") =
      .url ((build_weather_query_with_lat_long (chars "KEY")
        [chars "40.71", chars "-74.00"] false).getD []) :=
  c6_exactly_one_source (chars "KEY") false [[78, 89, 67]]
    [chars "1", chars "2"] [] (chars "40.71") (chars "-74.00") []
    (by decide)

/-- C7 counterexample: with no city argument and a geolocation result
with no coordinates (empty `latlng`), the program crashes with an
uncaught IndexError inside `build_weather_query_with_lat_long` — there is
no LocationError and no user-facing message on this path. -/
theorem c7_counterexample_no_location_error :
    main_build_query ⟨none, false⟩ [] (chars "KEY") = .crash ∧
    (main_build_query ⟨none, false⟩ [] (chars "KEY")).isUserExit = false := by
  constructor
  · rfl
  · rfl

/-- C7 (amended): when the geolocation result carries fewer than two
coordinate values, the coordinate path fails fatally — an uncaught
exception, not a LocationError with a user-facing message — and no query
URL is produced; the failure does not depend on the API key or the unit
flag. -/
theorem c7_short_location_crashes (api_key : List Char) (imperial : Bool)
    (geo : List (List Char)) (hshort : geo.length < 2) :
    main_build_query ⟨none, imperial⟩ geo api_key = .crash := by
  match geo, hshort with
  | [], _ => simp [main_build_query, build_weather_query_with_lat_long]
  | [g], _ => simp [main_build_query, build_weather_query_with_lat_long]

/-- Witness for the amended C7 with a single-element coordinate list. -/
theorem c7_short_location_crashes_witness :
    main_build_query ⟨none, true⟩ [chars "40.71"] (chars "KEY") = .crash :=
  c7_short_location_crashes (chars "KEY") true [chars "40.71"] (by decide)

/-- A parsed INI section: key/value pairs. -/
def ConfigSection : Type := List (List Char × List Char)

/-- A parsed INI file: named sections. -/
def ConfigData : Type := List (List Char × ConfigSection)

/-- First-match lookup in a key/value list (the subscript operator of
`ConfigParser`; a missing name raises KeyError). -/
def lookupEntry {α : Type} (l : List (List Char × α)) (key : List Char) :
    Option α :=
  match l with
  | [] => none
  | (k, v) :: rest => if k = key then some v else lookupEntry rest key

/-- The KeyError raised by `config["openweather"]` or by `["api_key"]`:
the configuration-error failure mode.  It is fatal — uncaught, it
terminates the program, and no API key is produced. -/
inductive ConfigKeyError where
  | missingSection
  | missingKey
deriving DecidableEq, Repr

/-- `_get_api_key` from `weather.py`.  `config.read("secrets.ini")` on an
absent file silently leaves the parser empty (`none` models the absent
file); the two subscripts then either produce the key string or raise
KeyError. -/
def get_api_key (secretsFile : Option ConfigData) :
    Except ConfigKeyError (List Char) :=
  let config : ConfigData := secretsFile.getD []
  match lookupEntry config (chars "openweather") with
  | none => .error .missingSection
  | some sect =>
    match lookupEntry sect (chars "api_key") with
    | none => .error .missingKey
    | some key => .ok key

/-- C8: the configuration loader fails with a configuration error (an
uncaught KeyError, fatal — no key is produced so the program cannot
proceed) whenever the secrets file is absent or the `openweather` section
or its `api_key` entry is missing, and succeeds returning exactly the
stored key string otherwise. -/
theorem c8_api_key_lookup (c : ConfigData) (s : ConfigSection)
    (k : List Char) :
    (get_api_key none = .error .missingSection) ∧
    (lookupEntry c (chars "openweather") = none →
      get_api_key (some c) = .error .missingSection) ∧
    (lookupEntry c (chars "openweather") = some s →
      lookupEntry s (chars "api_key") = none →
      get_api_key (some c) = .error .missingKey) ∧
    (lookupEntry c (chars "openweather") = some s →
      lookupEntry s (chars "api_key") = some k →
      get_api_key (some c) = .ok k) := by
  refine ⟨rfl, ?_, ?_, ?_⟩
  · intro h
    simp [get_api_key, h]
  · intro hs hk
    simp [get_api_key, hs, hk]
  · intro hs hk
    simp [get_api_key, hs, hk]

/-- Witness for C8: an absent file, a config whose section lacks the
key, and a complete config. -/
theorem c8_api_key_lookup_witness :
    get_api_key none = .error .missingSection ∧
    get_api_key (some [(chars "openweather", [(chars "other", chars "1")])]) =
      .error .missingKey ∧
    get_api_key (some [(chars "openweather",
        [(chars "api_key", chars "SECRET")])]) = .ok (chars "SECRET") :=
  ⟨(c8_api_key_lookup [] [] []).1,
   (c8_api_key_lookup [(chars "openweather", [(chars "other", chars "1")])]
      [(chars "other", chars "1")] []).2.2.1 rfl rfl,
   (c8_api_key_lookup [(chars "openweather", [(chars "api_key", chars "SECRET")])]
      [(chars "api_key", chars "SECRET")] (chars "SECRET")).2.2.2 rfl rfl⟩

/-- The `description` of the first element of the payload's `weather`
array, when there is one: the only part of that array the presenter
reads. -/
def headDescription (w : WeatherPayload) : Option (List Char) :=
  w.weather.head?.map WeatherEntry.description

/-- C10: the formatted output line depends only on the payload's `name`,
`weather[0].description` and `main.temp` together with the imperial flag:
two decoded payloads agreeing on those three fields format identically,
every other field ignored. -/
theorem c10_output_depends_only_on_read_fields (w1 w2 : WeatherPayload)
    (imperial : Bool) (hname : w1.name = w2.name)
    (htemp : w1.main.temp = w2.main.temp)
    (hdesc : headDescription w1 = headDescription w2) :
    weather_output_format w1 imperial = weather_output_format w2 imperial := by
  match hw1 : w1.weather, hw2 : w2.weather, hdesc with
  | [], [], _ => simp [weather_output_format, hw1, hw2]
  | [], e2 :: l2, hd => simp [headDescription, hw1, hw2] at hd
  | e1 :: l1, [], hd => simp [headDescription, hw1, hw2] at hd
  | e1 :: l1, e2 :: l2, hd =>
    have hd' : e1.description = e2.description := by
      simpa [headDescription, hw1, hw2] using hd
    simp [weather_output_format, hw1, hw2, hd', hname, htemp]

/-- Witness for C10: two payloads with the same read fields but different
extra fields, a different tail of the weather array, and different
unread keys. -/
theorem c10_output_depends_only_on_read_fields_witness :
    weather_output_format
      ⟨chars "Paris", [⟨chars "mist", [(chars "id", chars "701")]⟩], ⟨12, []⟩, []⟩
      false =
    weather_output_format
      ⟨chars "Paris",
        [⟨chars "mist", []⟩, ⟨chars "haze", []⟩],
        ⟨12, [(chars "humidity", chars "90")]⟩,
        [(chars "cod", chars "200")]⟩
      false :=
  c10_output_depends_only_on_read_fields
    ⟨chars "Paris", [⟨chars "mist", [(chars "id", chars "701")]⟩], ⟨12, []⟩, []⟩
    ⟨chars "Paris",
      [⟨chars "mist", []⟩, ⟨chars "haze", []⟩],
      ⟨12, [(chars "humidity", chars "90")]⟩,
      [(chars "cod", chars "200")]⟩
    false rfl rfl rfl
